import Mathlib

/-! Model of the whatsapp-amo relay pipeline: the Redis-backed durable queue
and its retry policy, the fixed-window rate limiter, the outgoing worker
pipeline, the WhatsApp client reconnect state machine, the amoCRM variant
negotiation chains, the conversation-id mapping store, and the webhook
normalization path.  Each definition is a shallow embedding of the
corresponding TypeScript function; network effects are represented as
explicit trace events or outcome inputs. -/

namespace WhatsAppAmo

/-- Data of an incoming (WhatsApp to amoCRM) queue message,
mirroring IncomingMessageData in queue/types. -/
structure IncomingMessageData where
  from_ : String
  phoneNumber : String
  pushName : Option String
  message : Option String
  mediaType : Option String
  mediaUrl : Option String
  mediaMimetype : Option String
  timestamp : Nat
  deriving DecidableEq, Repr

/-- Data of an outgoing (amoCRM to WhatsApp) queue message,
mirroring OutgoingMessageData in queue/types.  The source field named to
is spelled to_ because to is reserved in Lean. -/
structure OutgoingMessageData where
  to_ : String
  message : String
  mediaUrl : Option String
  mediaType : Option String
  deriving DecidableEq, Repr

/-- The data union of a queue message: the TypeScript type is
IncomingMessageData | OutgoingMessageData. -/
inductive MessageData where
  | incoming (d : IncomingMessageData)
  | outgoing (d : OutgoingMessageData)
  deriving DecidableEq, Repr

/-- A message on the durable queue, mirroring QueueMessage in queue/types.
In the source retryCount is optional; absence is modelled as none. -/
structure QueueMessage where
  id : String
  type : String
  accountId : String
  timestamp : Nat
  retryCount : Option Nat
  data : MessageData
  deriving DecidableEq, Repr

/-- The default value of the maxRetries argument of RedisQueue.retry. -/
def retryDefaultMax : Nat := 3

namespace RedisQueue

/-- RedisQueue.retry: when the message's retry count (0 when absent) has
reached maxRetries, the message is enqueued unchanged on the
dead-letter channel of its type; otherwise the count is incremented and
the message is enqueued back on its type's queue channel.  The result is
the channel enqueued to, paired with the message as enqueued. -/
def retry (message : QueueMessage) (maxRetries : Nat) : String × QueueMessage :=
  if (message.retryCount.getD 0) ≥ maxRetries then
    (message.type ++ ":dead-letter", message)
  else
    (message.type ++ ":queue",
      { message with retryCount := some ((message.retryCount.getD 0) + 1) })

end RedisQueue

/-- The failure path of QueueProcessor.processQueue calls queue.retry with
no explicit maximum, so the default of 3 applies. -/
def QueueProcessor.handleFailure (message : QueueMessage) : String × QueueMessage :=
  RedisQueue.retry message retryDefaultMax

/-- One fixed-window entry of the rate limiter, mirroring RateLimitEntry. -/
structure RateLimitEntry where
  count : Nat
  resetAt : Nat
  deriving DecidableEq, Repr

/-- The rate limiter state: a map from key to window entry plus the two
configuration fields of the RateLimiter class.  The Map is modelled as a
function to Option. -/
structure RateLimiter where
  limits : String → Option RateLimitEntry
  maxRequests : Nat
  windowMs : Nat

/-- Map.set on the limiter's key-to-entry map. -/
def setEntry (m : String → Option RateLimitEntry) (key : String)
    (e : RateLimitEntry) : String → Option RateLimitEntry :=
  fun k => if k = key then some e else m k

/-- The limiter with the entry for one key replaced (an abbreviation for
the state produced by the mutating branches of checkLimit). -/
def bumpAt (rl : RateLimiter) (key : String) (e : RateLimitEntry) :
    RateLimiter :=
  { rl with limits := setEntry rl.limits key e }

/-- RateLimiter.checkLimit at an explicit current time now: a missing or
expired entry starts a fresh window with count 1 and permits the call; a
live entry at or above maxRequests denies the call and leaves the state
unchanged; otherwise the count is incremented and the call permitted.  The
source merges the first two cases as a single test on the entry. -/
def RateLimiter.checkLimit (rl : RateLimiter) (key : String) (now : Nat) :
    Bool × RateLimiter :=
  let fresh : RateLimitEntry := { count := 1, resetAt := now + rl.windowMs }
  match rl.limits key with
  | none =>
      (true, { rl with limits := setEntry rl.limits key fresh })
  | some entry =>
      if now > entry.resetAt then
        (true, { rl with limits := setEntry rl.limits key fresh })
      else if entry.count ≥ rl.maxRequests then
        (false, rl)
      else
        let bumped : RateLimitEntry := { entry with count := entry.count + 1 }
        (true, { rl with limits := setEntry rl.limits key bumped })

/-- The global messageRateLimiter instance: 10 messages per 60000 ms. -/
def messageRateLimiter : RateLimiter :=
  { limits := fun _ => none, maxRequests := 10, windowMs := 60000 }

/-- The global mediaRateLimiter instance: 5 media per 60000 ms. -/
def mediaRateLimiter : RateLimiter :=
  { limits := fun _ => none, maxRequests := 5, windowMs := 60000 }

/-- A sequence of checkLimit calls on one key at the given times, threading
the limiter state; returns the list of results and the final state. -/
def checkCalls (rl : RateLimiter) (key : String) : List Nat → List Bool × RateLimiter
  | [] => ([], rl)
  | t :: ts =>
      let step := rl.checkLimit key t
      let rest := checkCalls step.2 key ts
      (step.1 :: rest.1, rest.2)

/-- Observable steps of the outgoing worker registered for the outgoing
channel; network effects are abstracted to trace events in order. -/
inductive PipelineEvent where
  | rateLimitCheck (permitted : Bool)
  | retryRequeue (channel : String) (m : QueueMessage)
  | typingSimulation (accountId target : String)
  | randomDelayApplied
  | mediaSend (accountId target : String)
  | textSend (accountId target text : String)
  deriving DecidableEq, Repr

/-- Projects the outgoing payload out of the data union; the source performs
an unchecked cast (message.data as OutgoingMessageData). -/
def getOutgoingData : MessageData → Option OutgoingMessageData
  | .outgoing d => some d
  | .incoming _ => none

/-- The outgoing-channel processor registered with
queueProcessor.registerProcessor.  It first checks the message rate limit
for the account; on denial it re-enqueues the message via queue.retry (with
the default maximum) and stops.  When permitted it simulates typing,
applies the random delay, and sends the message to the WhatsApp client
(media send when both mediaUrl and mediaType are present, text send
otherwise).  The returned trace lists the steps in the order the source
performs them, together with the updated limiter state. -/
def processOutgoing (rl : RateLimiter) (m : QueueMessage) (now : Nat) :
    List PipelineEvent × RateLimiter :=
  match getOutgoingData m.data with
  | none => ([], rl)
  | some d =>
      let checked := rl.checkLimit m.accountId now
      if checked.1 = false then
        let requeued := RedisQueue.retry m retryDefaultMax
        ([.rateLimitCheck false, .retryRequeue requeued.1 requeued.2], checked.2)
      else
        let sendEvent :=
          match d.mediaUrl, d.mediaType with
          | some _, some _ => PipelineEvent.mediaSend m.accountId d.to_
          | _, _ => PipelineEvent.textSend m.accountId d.to_ d.message
        ([.rateLimitCheck true, .typingSimulation m.accountId d.to_,
          .randomDelayApplied, sendEvent], checked.2)

/-- Baileys DisconnectReason.loggedOut status code. -/
def loggedOutStatusCode : Nat := 401

/-- The WhatsAppClient fields relevant to reconnection: the attempt
counter, the pending reconnect timer (its delay in ms, none when no timer
is set), and the connected flag kept by the manager's status map. -/
structure WhatsAppClientState where
  reconnectAttempts : Nat
  reconnectTimeout : Option Nat
  connected : Bool
  deriving DecidableEq, Repr

/-- WhatsAppClient.maxReconnectAttempts. -/
def maxReconnectAttempts : Nat := 5

/-- WhatsAppClient.handleDisconnect: when the attempt counter has reached
the maximum nothing is scheduled; otherwise the counter is incremented and
a reconnect timer is set with delay min(1000 * 2 ^ attempts, 30000). -/
def handleDisconnect (s : WhatsAppClientState) : WhatsAppClientState :=
  if s.reconnectAttempts ≥ maxReconnectAttempts then s
  else
    let attempts := s.reconnectAttempts + 1
    { s with reconnectAttempts := attempts,
             reconnectTimeout := some (min (1000 * 2 ^ attempts) 30000) }

/-- A connection.update event as dispatched by setupConnectionHandler:
close carries the Boom status code of lastDisconnect (if any). -/
inductive ConnectionEvent where
  | close (statusCode : Option Nat)
  | opened
  | connecting
  deriving DecidableEq, Repr

/-- The combined effect of setupConnectionHandler and the WhatsAppClient
callbacks on the client state.  On close, setupConnectionHandler computes
shouldReconnect (status code differs from loggedOut) but uses it only for
logging and the onConnecting callback; callbacks.onDisconnected is invoked
for every close, and the client's onDisconnected wiring runs
handleDisconnect unconditionally, so the status code does not affect the
state transition.  On open the attempt counter is reset to zero. -/
def connectionUpdate (s : WhatsAppClientState) : ConnectionEvent → WhatsAppClientState
  | .close _ => handleDisconnect { s with connected := false }
  | .opened => { s with connected := true, reconnectAttempts := 0 }
  | .connecting => s

/-- Shape of an amoCRM response body, restricted to the fields inspected by
sendScopedMessage when extracting a returned conversation id.  A field is
none when absent; the source reads it with optional chaining. -/
structure AmoResponse where
  newMessageConversationId : Option String
  conversationId : Option String
  id : Option String
  deriving DecidableEq, Repr

/-- Result of posting one request variant to amoCRM: either a 2xx response
with a body, or an HTTP error with its status code (axios throws on any
status of 400 and above). -/
inductive VariantResult where
  | success (resp : AmoResponse)
  | httpError (status : Nat)
  deriving DecidableEq, Repr

/-- Outcome of an attempt chain: a variant delivered and returned a
response; a variant failed with a non-404 error and the chain was aborted
by rethrowing it; or every variant failed with 404 and the chain was
exhausted (the last 404 error is rethrown). -/
inductive ChainOutcome where
  | delivered (resp : AmoResponse)
  | aborted (status : Nat)
  | exhausted
  deriving DecidableEq, Repr

/-- The payload-variant loop of sendScopedMessage, over the results of the
variants in their fixed priority order: a success returns immediately; a
404 continues with the next variant; any other error aborts the chain. -/
def runVariantChain : List VariantResult → ChainOutcome
  | [] => .exhausted
  | .success r :: _ => .delivered r
  | .httpError s :: rest =>
      if s = 404 then runVariantChain rest else .aborted s

/-- The method fallback loop of sendMessage (used when no scope id is
bound): each method is tried in order and the loop continues to the next
method on any error, whatever its status. -/
def runMethodChain : List VariantResult → ChainOutcome
  | [] => .exhausted
  | .success r :: _ => .delivered r
  | .httpError _ :: rest => runMethodChain rest

/-- Result of sendScopedMessage as seen by its caller: successful delivery
with the response; the TOKEN_REFRESH_ERROR raised from the 401 handler; or
a SEND_SCOPED_MESSAGE_ERROR carrying the HTTP status of the fatal error. -/
inductive SendResult where
  | ok (resp : AmoResponse)
  | tokenRefreshError
  | failedWith (status : Nat)
  deriving DecidableEq, Repr

/-- sendScopedMessage over explicit network outcomes: the first list gives,
for each successive full attempt of the variant chain, the per-variant
results it would observe; the second list gives the outcome of each
successive oauth.refreshTokens call.  A delivered chain returns ok.  A
chain aborted with 401 reaches the outer catch, which awaits a token
refresh and then returns the recursive call of the whole function without
awaiting it — so only a failing refresh is caught and converted to
TOKEN_REFRESH_ERROR, while the retried call's result or rejection escapes
the refresh catch and propagates to the caller unchanged.  A chain aborted
with any other status, or exhausted on 404s, is rethrown as a failure with
that status.  Running out of modelled attempts is an artifact mapped to
failedWith 500. -/
def sendScopedModel : List (List VariantResult) → List Bool → SendResult
  | [], _ => .failedWith 500
  | chain :: moreChains, refreshes =>
      match runVariantChain chain with
      | .delivered r => .ok r
      | .aborted s =>
          if s = 401 then
            match refreshes with
            | true :: rs => sendScopedModel moreChains rs
            | _ => .tokenRefreshError
          else .failedWith s
      | .exhausted => .failedWith 404

/-- JavaScript truthiness on an optional string field: absent values and
the empty string are both falsy, so a || b skips them. -/
def jsTruthy : Option String → Option String
  | none => none
  | some s => if s = "" then none else some s

/-- The amocrm_conversations table keyed by (account_id, phone_number),
modelled as a map to the stored conversation_id. -/
def ConversationDB : Type := String → String → Option String

/-- saveConversationId: an upsert on the (account_id, phone_number) key. -/
def saveConversationId (db : ConversationDB) (accountId phoneNumber cid : String) :
    ConversationDB :=
  fun a p =>
    if a = accountId then
      if p = phoneNumber then some cid else db a p
    else db a p

/-- getConversationId: looks the pair up and returns the row's
conversation_id or null (the source returns row?.conversation_id || null,
so an empty stored string also reads back as null). -/
def getConversationId (db : ConversationDB) (accountId phoneNumber : String) :
    Option String :=
  jsTruthy (db accountId phoneNumber)

/-- The conversation-id extraction of sendScopedMessage on a successful
response: response.data.new_message?.conversation_id ||
response.data.conversation_id || response.data.id, with JavaScript
truthiness at each step. -/
def extractConversationId (r : AmoResponse) : Option String :=
  match jsTruthy r.newMessageConversationId with
  | some c => some c
  | none =>
      match jsTruthy r.conversationId with
      | some c => some c
      | none => jsTruthy r.id

/-- The persistence step of sendScopedMessage's success path: when the
response carries a (truthy) returned conversation id and the phone number
is nonempty, the id is saved for the (account, phone) pair. -/
def persistReturnedConversationId (db : ConversationDB)
    (accountId phoneNumber : String) (r : AmoResponse) : ConversationDB :=
  match extractConversationId r with
  | some cid =>
      if phoneNumber = "" then db
      else saveConversationId db accountId phoneNumber cid
  | none => db

/-- Whitespace characters matched by the JavaScript regex class backslash-s
(restricted to the ASCII ones). -/
def isJsSpace (c : Char) : Bool :=
  c = ' ' || c = '\t' || c = '\n' || c = '\r' || c = '\x0b' || c = '\x0c'

/-- Case-insensitive match of the pattern characters against the head of
the list; returns the rest of the list after the pattern on success. -/
def matchCaseInsensitive : List Char → List Char → Option (List Char)
  | [], rest => some rest
  | _ :: _, [] => none
  | p :: ps, c :: cs =>
      if c.toLower = p then matchCaseInsensitive ps cs else none

/-- The letters of the literal WhatsApp in the amoCRM chat_id marker. -/
def whatsappLetters : List Char := ['w', 'h', 'a', 't', 's', 'a', 'p', 'p']

/-- phoneNumber.replace applied to the regex that removes a leading
WhatsApp marker: case-insensitive WhatsApp followed by at least one
whitespace character, greedy, removed once from the front; a string that
does not match is returned unchanged. -/
def stripWhatsAppMarker (s : String) : String :=
  match matchCaseInsensitive whatsappLetters s.toList with
  | some (c :: cs) =>
      if isJsSpace c then String.mk (cs.dropWhile isJsSpace) else s
  | some [] => s
  | none => s

/-- phoneNumber.replace applied to the regex that deletes every non-digit
character, leaving the digits 0-9 in order. -/
def digitsOnly (s : String) : String :=
  String.mk (s.toList.filter Char.isDigit)

/-- phoneNumber.includes applied to the at-sign, on the character list. -/
def containsAtSign (s : String) : Bool :=
  s.toList.any (fun c => c = '@')

/-- The WhatsApp address formation of handleOutgoingMessage: append the
s.whatsapp.net domain unless the number already carries an at-sign. -/
def toWhatsAppAddress (phoneNumber : String) : String :=
  if containsAtSign phoneNumber then phoneNumber
  else phoneNumber ++ "@s.whatsapp.net"

/-- A normalized amoCRM webhook payload as produced by
validateWebhookRequest: account id, chat id, message content, the
attachments as (url, type) pairs, and an optional conversation id. -/
structure AmoCRMWebhookPayload where
  account_id : String
  chat_id : String
  content : String
  attachments : List (String × String)
  conversation_id : Option String
  deriving DecidableEq, Repr

/-- Result of handleOutgoingMessage: either the message was enqueued on the
named channel, or one of the three error throws of the source. -/
inductive HandleOutgoingResult where
  | enqueued (channel : String) (m : QueueMessage)
  | errorAccountNotFound
  | errorAccountNotConnected
  | errorInvalidChatId
  deriving DecidableEq, Repr

/-- The outgoing queue message built by handleOutgoingMessage: id
outgoing_{account}_{now}, type outgoing, no retry count, and data holding
the WhatsApp address formed from the normalized chat_id, the message
content, and the url and type of the first attachment when present. -/
def enqueuedOutgoingMessage (payload : AmoCRMWebhookPayload) (now : Nat) :
    QueueMessage :=
  { id := "outgoing_" ++ payload.account_id ++ "_" ++ toString now,
    type := "outgoing",
    accountId := payload.account_id,
    timestamp := now,
    retryCount := none,
    data := .outgoing
      { to_ := toWhatsAppAddress (digitsOnly (stripWhatsAppMarker payload.chat_id)),
        message := payload.content,
        mediaUrl := (payload.attachments.head?).map Prod.fst,
        mediaType := (payload.attachments.head?).map Prod.snd } }

/-- handleOutgoingMessage: fails when the account is unknown or not
connected; extracts the phone number from chat_id by stripping a leading
WhatsApp marker and every non-digit character, failing when nothing is
left; saves a truthy webhook conversation_id for the pair; forms the
WhatsApp address; and enqueues the outgoing queue message (built from the
payload content and first attachment) on the outgoing queue channel.  The
account status is given as none (not found) or some of the connected flag,
and now supplies Date.now for the message id and timestamp. -/
def handleOutgoingMessage (accountStatus : Option Bool)
    (payload : AmoCRMWebhookPayload) (db : ConversationDB) (now : Nat) :
    HandleOutgoingResult × ConversationDB :=
  match accountStatus with
  | none => (.errorAccountNotFound, db)
  | some false => (.errorAccountNotConnected, db)
  | some true =>
      let phoneNumber := digitsOnly (stripWhatsAppMarker payload.chat_id)
      if phoneNumber = "" then (.errorInvalidChatId, db)
      else
        let db2 :=
          match jsTruthy payload.conversation_id with
          | some cid => saveConversationId db payload.account_id phoneNumber cid
          | none => db
        (.enqueued "outgoing:queue" (enqueuedOutgoingMessage payload now), db2)

/-! Concrete inputs used by the witnesses and counterexamples. -/

/-- A concrete outgoing queue message with no retry count. -/
def msgFresh : QueueMessage :=
  { id := "m1", type := "outgoing", accountId := "acc1", timestamp := 0,
    retryCount := none,
    data := .outgoing { to_ := "79990000000@s.whatsapp.net", message := "hello",
                        mediaUrl := none, mediaType := none } }

/-- The same message with its retry count at the default maximum. -/
def msgAtMax : QueueMessage := { msgFresh with retryCount := some 3 }

/-- C2: for every queue message m and maximum max, retry either re-enqueues
m on its type's queue channel with the retry count incremented by one (when
the count, zero when absent, is below max) or enqueues m unchanged on the
type's dead-letter channel (when the count has reached max); both branches
enqueue, so the message is never dropped, and the incremented count stays
at or below the maximum. -/
theorem retry_requeues_or_dead_letters (m : QueueMessage) (max : Nat) :
    (m.retryCount.getD 0 < max →
      RedisQueue.retry m max =
        (m.type ++ ":queue",
          { m with retryCount := some (m.retryCount.getD 0 + 1) }) ∧
      m.retryCount.getD 0 + 1 ≤ max) ∧
    (max ≤ m.retryCount.getD 0 →
      RedisQueue.retry m max = (m.type ++ ":dead-letter", m)) := by
  constructor
  · intro h
    refine ⟨?_, by omega⟩
    unfold RedisQueue.retry
    rw [if_neg (by omega)]
  · intro h
    unfold RedisQueue.retry
    rw [if_pos h]

/-- Witness for C2 at concrete inputs: a fresh message is re-enqueued with
count one and a message at the maximum is dead-lettered. -/
theorem retry_requeues_or_dead_letters_witness :
    RedisQueue.retry msgFresh 3 =
      ("outgoing:queue", { msgFresh with retryCount := some 1 }) ∧
    RedisQueue.retry msgAtMax 3 = ("outgoing:dead-letter", msgAtMax) :=
  ⟨((retry_requeues_or_dead_letters msgFresh 3).1 (by decide)).1,
   (retry_requeues_or_dead_letters msgAtMax 3).2 (by decide)⟩

/-- C10: a message whose retryCount field is absent is treated as having
count zero: the processor's failure path (retry with no explicit maximum,
so the default of 3) re-enqueues it with count 1, a second and third
failure re-enqueue with counts 2 and 3, and the fourth attempt moves it to
the dead-letter channel, so the message is re-enqueued at most 3 times. -/
theorem retry_missing_count_defaults (m : QueueMessage)
    (h : m.retryCount = none) :
    QueueProcessor.handleFailure m =
      (m.type ++ ":queue", { m with retryCount := some 1 }) ∧
    QueueProcessor.handleFailure { m with retryCount := some 1 } =
      (m.type ++ ":queue", { m with retryCount := some 2 }) ∧
    QueueProcessor.handleFailure { m with retryCount := some 2 } =
      (m.type ++ ":queue", { m with retryCount := some 3 }) ∧
    QueueProcessor.handleFailure { m with retryCount := some 3 } =
      (m.type ++ ":dead-letter", { m with retryCount := some 3 }) := by
  refine ⟨?_, ?_, ?_, ?_⟩ <;>
    simp [QueueProcessor.handleFailure, RedisQueue.retry, retryDefaultMax, h]

/-- Witness for C10 at a concrete message without a retry count. -/
theorem retry_missing_count_defaults_witness :
    QueueProcessor.handleFailure msgFresh =
      ("outgoing:queue", { msgFresh with retryCount := some 1 }) ∧
    QueueProcessor.handleFailure { msgFresh with retryCount := some 1 } =
      ("outgoing:queue", { msgFresh with retryCount := some 2 }) ∧
    QueueProcessor.handleFailure { msgFresh with retryCount := some 2 } =
      ("outgoing:queue", { msgFresh with retryCount := some 3 }) ∧
    QueueProcessor.handleFailure { msgFresh with retryCount := some 3 } =
      ("outgoing:dead-letter", { msgFresh with retryCount := some 3 }) :=
  retry_missing_count_defaults msgFresh rfl

/-- C1 counterexample: on a concrete permitted run of the outgoing worker
the trace begins with the rate-limit check, followed by the typing
simulation, the random delay, and only then the send; it is not the
claimed order in which the rate-limit check comes immediately before the
send. -/
theorem outgoing_order_counterexample :
    (processOutgoing messageRateLimiter msgFresh 0).1 =
      [.rateLimitCheck true,
       .typingSimulation "acc1" "79990000000@s.whatsapp.net",
       .randomDelayApplied,
       .textSend "acc1" "79990000000@s.whatsapp.net" "hello"] ∧
    (processOutgoing messageRateLimiter msgFresh 0).1 ≠
      [.typingSimulation "acc1" "79990000000@s.whatsapp.net",
       .randomDelayApplied,
       .rateLimitCheck true,
       .textSend "acc1" "79990000000@s.whatsapp.net" "hello"] := by
  exact ⟨rfl, by decide⟩

/-- C1 amended: the outgoing worker applies the rate-limit check FIRST;
when it permits, the typing simulation, then the random delay, then the
send follow in that order (media send when both media fields are present,
text send otherwise). -/
theorem outgoing_pipeline_order (rl : RateLimiter) (m : QueueMessage)
    (d : OutgoingMessageData) (now : Nat) (hd : m.data = .outgoing d)
    (hperm : (rl.checkLimit m.accountId now).1 = true) :
    (d.mediaUrl.isSome = true ∧ d.mediaType.isSome = true →
      (processOutgoing rl m now).1 =
        [.rateLimitCheck true, .typingSimulation m.accountId d.to_,
         .randomDelayApplied, .mediaSend m.accountId d.to_]) ∧
    (d.mediaUrl = none ∨ d.mediaType = none →
      (processOutgoing rl m now).1 =
        [.rateLimitCheck true, .typingSimulation m.accountId d.to_,
         .randomDelayApplied, .textSend m.accountId d.to_ d.message]) := by
  constructor
  · rintro ⟨hu, ht⟩
    obtain ⟨u, hu⟩ := Option.isSome_iff_exists.mp hu
    obtain ⟨t, ht⟩ := Option.isSome_iff_exists.mp ht
    simp [processOutgoing, getOutgoingData, hd, hperm, hu, ht]
  · intro hmedia
    rcases hmedia with hu | ht
    · cases htv : d.mediaType <;>
        simp [processOutgoing, getOutgoingData, hd, hperm, hu, htv]
    · cases huv : d.mediaUrl <;>
        simp [processOutgoing, getOutgoingData, hd, hperm, ht, huv]

/-- Witness for C1 amended at a concrete text message on a fresh limiter. -/
theorem outgoing_pipeline_order_witness :
    (processOutgoing messageRateLimiter msgFresh 0).1 =
      [.rateLimitCheck true,
       .typingSimulation "acc1" "79990000000@s.whatsapp.net",
       .randomDelayApplied,
       .textSend "acc1" "79990000000@s.whatsapp.net" "hello"] :=
  (outgoing_pipeline_order messageRateLimiter msgFresh _ 0 rfl rfl).2
    (Or.inl rfl)

/-- A limiter state whose window for acc1 is saturated at the maximum. -/
def rlSaturated : RateLimiter :=
  { limits := setEntry (fun _ => none) "acc1" { count := 10, resetAt := 60000 },
    maxRequests := 10, windowMs := 60000 }

/-- C7 counterexample: a message already carrying retry count 3 that is
denied by the rate limiter is re-enqueued through queue.retry, which moves
it to the dead-letter channel because its count reached the default
maximum — so rate-limit denials do push messages into dead-letter. -/
theorem rate_limited_dead_letter_counterexample :
    (processOutgoing rlSaturated msgAtMax 5).1 =
      [.rateLimitCheck false,
       .retryRequeue "outgoing:dead-letter" msgAtMax] := by
  rfl

/-- C7 amended: a rate-limit denial neither delivers nor drops the message
in that attempt: the worker re-enqueues it through queue.retry with the
default maximum, which increments the retry count — so a denial does count
against the retry budget, and once the count has reached 3 a further
denial moves the message to the dead-letter channel. -/
theorem rate_limit_denial_requeues (rl : RateLimiter) (m : QueueMessage)
    (d : OutgoingMessageData) (now : Nat) (hd : m.data = .outgoing d)
    (hdenied : (rl.checkLimit m.accountId now).1 = false) :
    (m.retryCount.getD 0 < retryDefaultMax →
      (processOutgoing rl m now).1 =
        [.rateLimitCheck false,
         .retryRequeue (m.type ++ ":queue")
           { m with retryCount := some (m.retryCount.getD 0 + 1) }]) ∧
    (retryDefaultMax ≤ m.retryCount.getD 0 →
      (processOutgoing rl m now).1 =
        [.rateLimitCheck false, .retryRequeue (m.type ++ ":dead-letter") m]) := by
  constructor
  · intro h
    simp [processOutgoing, getOutgoingData, hd, hdenied, RedisQueue.retry,
      Nat.not_le.mpr h]
  · intro h
    simp [processOutgoing, getOutgoingData, hd, hdenied, RedisQueue.retry, h]

/-- Witness for C7 amended: on the saturated limiter, a fresh message is
re-enqueued with count one and a message at the maximum is dead-lettered. -/
theorem rate_limit_denial_requeues_witness :
    (processOutgoing rlSaturated msgFresh 5).1 =
      [.rateLimitCheck false,
       .retryRequeue "outgoing:queue" { msgFresh with retryCount := some 1 }] ∧
    (processOutgoing rlSaturated msgAtMax 5).1 =
      [.rateLimitCheck false,
       .retryRequeue "outgoing:dead-letter" msgAtMax] :=
  ⟨(rate_limit_denial_requeues rlSaturated msgFresh _ 5 rfl rfl).1 (by decide),
   (rate_limit_denial_requeues rlSaturated msgAtMax _ 5 rfl rfl).2 (by decide)⟩

/-- A concrete successful amoCRM response carrying only an id field. -/
def respSimple : AmoResponse :=
  { newMessageConversationId := none, conversationId := none, id := some "msg1" }

/-- C4 counterexample: in the method fallback chain of sendMessage (the
unscoped path the claim also covers), a first attempt failing with status
500 does not abort the chain: the next method is tried and delivers, so a
non-404 error class does not stop the attempt chain there. -/
theorem method_chain_counterexample :
    runMethodChain [.httpError 500, .success respSimple] =
      .delivered respSimple ∧
    runMethodChain [.httpError 500, .success respSimple] ≠ .aborted 500 := by
  exact ⟨rfl, by decide⟩

/-- C4 amended: in the scoped-send variant chain a 404 moves on to the
next variant and any other error aborts the chain immediately, with no
later variant tried (the outcome ignores the remaining variants); in the
unscoped method fallback chain, however, every error — whatever its
status — falls through to the next method. -/
theorem variant_chain_stop_rule (s : Nat) (rest : List VariantResult)
    (hs : s ≠ 404) :
    runVariantChain (.httpError s :: rest) = .aborted s ∧
    runVariantChain (.httpError 404 :: rest) = runVariantChain rest ∧
    runMethodChain (.httpError s :: rest) = runMethodChain rest := by
  refine ⟨?_, ?_, rfl⟩
  · simp [runVariantChain, hs]
  · simp [runVariantChain]

/-- Witness for C4 amended at status 500 with one later variant. -/
theorem variant_chain_stop_rule_witness :
    runVariantChain [.httpError 500, .success respSimple] = .aborted 500 ∧
    runVariantChain [.httpError 404, .success respSimple] =
      runVariantChain [.success respSimple] ∧
    runMethodChain [.httpError 500, .success respSimple] =
      runMethodChain [.success respSimple] :=
  variant_chain_stop_rule 500 [.success respSimple] (by decide)

/-- C5 counterexample: a run in which the first variant chain aborts with
401, the refreshed retry aborts with 401 again, and a third chain (after a
second refresh) delivers.  The code returns success, so the second
authorization failure neither fails hard nor stops further refreshes,
contrary to the claimed retry-exactly-once behavior. -/
theorem auth_retry_counterexample :
    sendScopedModel
        [[.httpError 401], [.httpError 401], [.success respSimple]]
        [true, true] = .ok respSimple ∧
    sendScopedModel
        [[.httpError 401], [.httpError 401], [.success respSimple]]
        [true, true] ≠ .tokenRefreshError := by
  exact ⟨rfl, by decide⟩

/-- C5 amended: whenever a variant chain aborts with a 401, the negotiator
refreshes the credential; a failing refresh is a hard TOKEN_REFRESH_ERROR,
and a successful refresh retries the whole chain as a fresh send whose
result — success or failure — propagates to the caller unchanged
(the un-awaited return escapes the refresh catch).  The retried call
behaves exactly like the original, so each further 401 triggers another
refresh and retry, with no one-retry bound. -/
theorem auth_refresh_retry_unbounded (chain : List VariantResult)
    (moreChains : List (List VariantResult)) (rs : List Bool)
    (h : runVariantChain chain = .aborted 401) :
    sendScopedModel (chain :: moreChains) (false :: rs) =
      .tokenRefreshError ∧
    sendScopedModel (chain :: moreChains) (true :: rs) =
      sendScopedModel moreChains rs := by
  constructor
  · simp [sendScopedModel, h]
  · simp [sendScopedModel, h]

/-- Witness for C5 amended: after a 401 chain, a failing refresh is a
token-refresh error, and a successful refresh makes the send behave as a
fresh send over the remaining chain (here delivering respSimple). -/
theorem auth_refresh_retry_unbounded_witness :
    sendScopedModel [[.httpError 401], [.success respSimple]] [false] =
      .tokenRefreshError ∧
    sendScopedModel [[.httpError 401], [.success respSimple]] [true] =
      sendScopedModel [[.success respSimple]] [] :=
  auth_refresh_retry_unbounded [.httpError 401] [[.success respSimple]]
    [] rfl

/-- A client state fresh after a successful connection. -/
def freshClientState : WhatsAppClientState :=
  { reconnectAttempts := 0, reconnectTimeout := none, connected := true }

/-- C3: evaluation at the failing input.  When a connection close arrives
with the explicit-logout status code (Baileys loggedOut, 401), the
connection handler still invokes onDisconnected, and the client schedules
a reconnect timer (attempt counter 1, delay min(1000 * 2, 30000) = 2000 ms)
— even though the claim, and the handler's own log message about manual
reconnection, require no reconnect after an explicit logout. -/
theorem loggedOut_still_schedules_reconnect :
    (connectionUpdate freshClientState
        (.close (some loggedOutStatusCode))).reconnectTimeout = some 2000 ∧
    (connectionUpdate freshClientState
        (.close (some loggedOutStatusCode))).reconnectAttempts = 1 := by
  exact ⟨rfl, rfl⟩

/-- A truthy optional string is nonempty. -/
theorem jsTruthy_ne_empty {o : Option String} {c : String}
    (h : jsTruthy o = some c) : c ≠ "" := by
  cases o with
  | none => simp [jsTruthy] at h
  | some s =>
      by_cases hs : s = "" <;> simp [jsTruthy, hs] at h
      exact h ▸ hs

/-- A conversation id extracted from a response is nonempty. -/
theorem extractConversationId_ne_empty {r : AmoResponse} {cid : String}
    (h : extractConversationId r = some cid) : cid ≠ "" := by
  unfold extractConversationId at h
  cases h1 : jsTruthy r.newMessageConversationId with
  | some c => rw [h1] at h; exact (Option.some_inj.mp h) ▸ jsTruthy_ne_empty h1
  | none =>
      rw [h1] at h
      cases h2 : jsTruthy r.conversationId with
      | some c =>
          rw [h2] at h; exact (Option.some_inj.mp h) ▸ jsTruthy_ne_empty h2
      | none => rw [h2] at h; exact jsTruthy_ne_empty h

/-- C8: when a successful send's response carries a returned thread id —
read as new_message.conversation_id, then conversation_id, then id, in
that priority order — the success path persists it for the (account,
phone) pair, and a subsequent getConversationId for the same pair returns
exactly that id. -/
theorem conversation_id_roundtrip (db : ConversationDB)
    (accountId phoneNumber : String) (r : AmoResponse) (cid : String)
    (hx : extractConversationId r = some cid) (hp : phoneNumber ≠ "") :
    getConversationId
        (persistReturnedConversationId db accountId phoneNumber r)
        accountId phoneNumber = some cid := by
  unfold persistReturnedConversationId
  rw [hx]
  unfold getConversationId saveConversationId
  simp [jsTruthy, hp, extractConversationId_ne_empty hx]

/-- Witness for C8: a response with new_message.conversation_id set to t1
round-trips through the store for a concrete account and phone. -/
theorem conversation_id_roundtrip_witness :
    getConversationId
        (persistReturnedConversationId (fun _ _ => none) "acc1" "79990000000"
          { newMessageConversationId := some "t1", conversationId := none,
            id := none })
        "acc1" "79990000000" = some "t1" :=
  conversation_id_roundtrip (fun _ _ => none) "acc1" "79990000000"
    { newMessageConversationId := some "t1", conversationId := none,
      id := none } "t1" rfl (by decide)

/-- A digits-only string never contains the at-sign. -/
theorem containsAtSign_digitsOnly (s : String) :
    containsAtSign (digitsOnly s) = false := by
  unfold containsAtSign digitsOnly
  rw [List.any_eq_false]
  intro c hc
  have hd : c.isDigit := (List.mem_filter.mp hc).2
  simp only [decide_eq_true_eq]
  intro hcat
  rw [hcat] at hd
  simp [Char.isDigit] at hd

/-- C9: for a webhook payload handled with its account connected and whose
chat_id yields a nonempty digit string (attachments empty, as in the
claim's scenario), handleOutgoingMessage enqueues on the outgoing queue
channel a message whose target is the digits-only counterpart with the
s.whatsapp.net domain appended; and the outgoing worker, when the rate
limiter permits, sends exactly to that target after typing simulation and
the random delay. -/
theorem handleOutgoing_normalization (payload : AmoCRMWebhookPayload)
    (db : ConversationDB) (now later : Nat)
    (hphone : digitsOnly (stripWhatsAppMarker payload.chat_id) ≠ "")
    (hatt : payload.attachments = []) :
    (handleOutgoingMessage (some true) payload db now).1 =
      .enqueued "outgoing:queue" (enqueuedOutgoingMessage payload now) ∧
    (enqueuedOutgoingMessage payload now).data =
      .outgoing
        { to_ := digitsOnly (stripWhatsAppMarker payload.chat_id) ++
            "@s.whatsapp.net",
          message := payload.content, mediaUrl := none, mediaType := none } ∧
    (processOutgoing messageRateLimiter (enqueuedOutgoingMessage payload now)
        later).1 =
      [.rateLimitCheck true,
       .typingSimulation payload.account_id
         (digitsOnly (stripWhatsAppMarker payload.chat_id) ++
           "@s.whatsapp.net"),
       .randomDelayApplied,
       .textSend payload.account_id
         (digitsOnly (stripWhatsAppMarker payload.chat_id) ++
           "@s.whatsapp.net")
         payload.content] := by
  have haddr : toWhatsAppAddress (digitsOnly (stripWhatsAppMarker payload.chat_id)) =
      digitsOnly (stripWhatsAppMarker payload.chat_id) ++ "@s.whatsapp.net" := by
    unfold toWhatsAppAddress
    rw [containsAtSign_digitsOnly]
    simp
  refine ⟨?_, ?_, ?_⟩
  · unfold handleOutgoingMessage
    simp [hphone]
  · unfold enqueuedOutgoingMessage
    simp [haddr, hatt]
  · unfold processOutgoing
    simp [enqueuedOutgoingMessage, getOutgoingData, hatt, haddr,
      RateLimiter.checkLimit, messageRateLimiter]

/-- Witness for C9: the claim's concrete scenario, chat_id
WhatsApp 79990000000 with message hello on account acc1, is enqueued with
target 79990000000@s.whatsapp.net and sent to that target. -/
theorem handleOutgoing_normalization_witness :
    (handleOutgoingMessage (some true)
        { account_id := "acc1", chat_id := "WhatsApp 79990000000",
          content := "hello", attachments := [], conversation_id := none }
        (fun _ _ => none) 0).1 =
      .enqueued "outgoing:queue"
        (enqueuedOutgoingMessage
          { account_id := "acc1", chat_id := "WhatsApp 79990000000",
            content := "hello", attachments := [], conversation_id := none }
          0) ∧
    (enqueuedOutgoingMessage
        { account_id := "acc1", chat_id := "WhatsApp 79990000000",
          content := "hello", attachments := [], conversation_id := none }
        0).data =
      .outgoing
        { to_ := "79990000000@s.whatsapp.net", message := "hello",
          mediaUrl := none, mediaType := none } ∧
    (processOutgoing messageRateLimiter
        (enqueuedOutgoingMessage
          { account_id := "acc1", chat_id := "WhatsApp 79990000000",
            content := "hello", attachments := [], conversation_id := none }
          0) 0).1 =
      [.rateLimitCheck true,
       .typingSimulation "acc1" "79990000000@s.whatsapp.net",
       .randomDelayApplied,
       .textSend "acc1" "79990000000@s.whatsapp.net" "hello"] :=
  handleOutgoing_normalization
    { account_id := "acc1", chat_id := "WhatsApp 79990000000",
      content := "hello", attachments := [], conversation_id := none }
    (fun _ _ => none) 0 0 (by decide) rfl

/-- In-window accumulation: starting from a live entry with count c and
reset time R, a run of calls all at times at most R is entirely permitted
as long as it cannot push the count past the maximum, and it leaves the
entry at count c plus the number of calls with the same reset time, the
configuration unchanged. -/
theorem checkCalls_in_window (key : String) (R M W : Nat)
    (ts : List Nat) (rl : RateLimiter) (c : Nat)
    (hM : rl.maxRequests = M) (hW : rl.windowMs = W)
    (hent : rl.limits key = some { count := c, resetAt := R })
    (hlen : c + ts.length ≤ M) (hts : ∀ t ∈ ts, t ≤ R) :
    (checkCalls rl key ts).1 = List.replicate ts.length true ∧
    (checkCalls rl key ts).2.maxRequests = M ∧
    (checkCalls rl key ts).2.windowMs = W ∧
    (checkCalls rl key ts).2.limits key =
      some { count := c + ts.length, resetAt := R } := by
  induction ts generalizing rl c with
  | nil =>
      refine ⟨rfl, hM, hW, ?_⟩
      simpa using hent
  | cons t ts ih =>
      have hnot : ¬ t > R := by
        have := hts t (List.mem_cons_self t ts)
        omega
      have hcM : ¬ c ≥ rl.maxRequests := by
        simp only [List.length_cons] at hlen
        omega
      have hstep : rl.checkLimit key t =
          (true, bumpAt rl key { count := c + 1, resetAt := R }) := by
        unfold RateLimiter.checkLimit bumpAt
        rw [hent]
        simp [hnot, hcM]
      have hkey : (bumpAt rl key { count := c + 1, resetAt := R }).limits key =
          some { count := c + 1, resetAt := R } := by
        simp [bumpAt, setEntry]
      have hrest := ih (bumpAt rl key { count := c + 1, resetAt := R })
        (c + 1) hM hW hkey (by simp only [List.length_cons] at hlen; omega)
        (fun t ht => hts t (List.mem_cons_of_mem _ ht))
      refine ⟨?_, ?_, ?_, ?_⟩
      · simp only [checkCalls, hstep, List.replicate_succ]
        exact congrArg (List.cons true) hrest.1
      · simp only [checkCalls, hstep]
        exact hrest.2.1
      · simp only [checkCalls, hstep]
        exact hrest.2.2.1
      · simp only [checkCalls, hstep]
        rw [hrest.2.2.2]
        have : c + 1 + ts.length = c + (ts.length + 1) := by omega
        rw [this]
        simp

/-- C6: on the global message limiter (maximum 10 per 60000 ms window), a
first call at time t0 followed by nine further calls inside the window are
all permitted; an eleventh call still inside the window is denied; and a
call made strictly after the window's reset time is permitted again. -/
theorem rate_limiter_window (key : String) (t0 : Nat) (ts : List Nat)
    (hlen : ts.length = 9) (hts : ∀ t ∈ ts, t ≤ t0 + 60000)
    (t10 t11 : Nat) (h10 : t10 ≤ t0 + 60000) (h11 : t0 + 60000 < t11) :
    (checkCalls messageRateLimiter key (t0 :: ts)).1 =
      List.replicate 10 true ∧
    ((checkCalls messageRateLimiter key (t0 :: ts)).2.checkLimit key t10).1 =
      false ∧
    ((checkCalls messageRateLimiter key (t0 :: ts)).2.checkLimit key t11).1 =
      true := by
  have hstep : messageRateLimiter.checkLimit key t0 =
      (true, bumpAt messageRateLimiter key
        { count := 1, resetAt := t0 + 60000 }) := by
    unfold RateLimiter.checkLimit bumpAt messageRateLimiter
    rfl
  have hkey : (bumpAt messageRateLimiter key
      { count := 1, resetAt := t0 + 60000 }).limits key =
      some { count := 1, resetAt := t0 + 60000 } := by
    simp [bumpAt, setEntry]
  have hrest := checkCalls_in_window key (t0 + 60000) 10 60000 ts
    (bumpAt messageRateLimiter key { count := 1, resetAt := t0 + 60000 })
    1 rfl rfl hkey (by omega) hts
  have hfinal : (checkCalls messageRateLimiter key (t0 :: ts)).2 =
      (checkCalls
        (bumpAt messageRateLimiter key { count := 1, resetAt := t0 + 60000 })
        key ts).2 := by
    simp only [checkCalls, hstep]
  refine ⟨?_, ?_, ?_⟩
  · simp only [checkCalls, hstep]
    rw [hlen] at hrest
    exact congrArg (List.cons true) hrest.1
  · rw [hfinal]
    unfold RateLimiter.checkLimit
    rw [hrest.2.2.2, hlen]
    have hnot : ¬ t10 > t0 + 60000 := by omega
    simp [hnot, hrest.2.1]
  · rw [hfinal]
    unfold RateLimiter.checkLimit
    rw [hrest.2.2.2, hlen]
    simp [h11]

/-- Witness for C6: ten calls at time 0 on key a are permitted, the
eleventh at time 0 is denied, and a call at time 60001 is permitted. -/
theorem rate_limiter_window_witness :
    (checkCalls messageRateLimiter "a"
        (0 :: [0, 0, 0, 0, 0, 0, 0, 0, 0])).1 = List.replicate 10 true ∧
    ((checkCalls messageRateLimiter "a"
        (0 :: [0, 0, 0, 0, 0, 0, 0, 0, 0])).2.checkLimit "a" 0).1 = false ∧
    ((checkCalls messageRateLimiter "a"
        (0 :: [0, 0, 0, 0, 0, 0, 0, 0, 0])).2.checkLimit "a" 60001).1 = true :=
  rate_limiter_window "a" 0 [0, 0, 0, 0, 0, 0, 0, 0, 0] rfl
    (by intro t ht; simp at ht; omega) 0 60001 (by omega) (by omega)

end WhatsAppAmo
